import Mathlib

/-!
Shallow embedding of the scoring-and-adaptive-difficulty engine of the
Filipino adaptive quiz application.

Sources embedded here:
* the scoring strategy classes (StandardScoring, NegativePenaltyScoring,
  PartialCreditScoring, ConfidenceBasedScoring, ThresholdScoring,
  TimeBasedScoring, AdaptiveDifficultyScoring, ComboStreakScoring,
  CompositeScoring, ScoringStrategyFactory) from
  src/backend/src/controllers/authController.ts;
* the adaptive question selector (selectAdaptiveQuestions) from
  src/backend/src/routes/quizRoutes.ts.

JavaScript numbers are modelled as rationals (ℚ).  A JS number that is not
finite (NaN or an infinity, which here can only arise from a division whose
denominator is 0) is modelled as `none : Option ℚ`; every finite value is
`some q`.  JS falsy-default expressions `x || d` on optionally-present
numbers are modelled by `jsOrQ`, which — exactly like JS — also replaces a
PRESENT value of 0 by the default, because 0 is falsy.
-/

namespace Quiz

/-- JS `a / b`: division by zero produces a non-finite number (NaN when the
numerator is 0, an infinity otherwise), modelled as `none`. In this code
base every division with zero denominator also has numerator 0, so `none`
always stands for NaN here. -/
def jsDiv (a b : ℚ) : Option ℚ :=
  if b = 0 then none else some (a / b)

/-- JS `x || d` on an optional numeric `x`: an absent value and the falsy
number 0 both fall back to the default `d`. -/
def jsOrQ (x : Option ℚ) (d : ℚ) : ℚ :=
  match x with
  | none => d
  | some v => if v = 0 then d else v

/-- JS `p < t` where `p` may be non-finite: any comparison with NaN is
false. -/
def jsLtOpt (p : Option ℚ) (t : ℚ) : Bool :=
  match p with
  | none => false
  | some v => decide (v < t)

/-- JS `Array.prototype.slice(0, e)`: a negative end index counts from the
end of the array (`max (len + e) 0`); a non-negative one is clamped to the
length. -/
def jsSlice0 {α : Type} (l : List α) (e : Int) : List α :=
  if e < 0 then l.take ((l.length + e).toNat) else l.take e.toNat

/-- JS `Array.prototype.join(sep)`. -/
def jsJoin (sep : String) : List String → String
  | [] => ""
  | x :: xs => xs.foldl (fun acc s => acc ++ sep ++ s) x

/-- Left-pad a string with zeros up to length `d`. -/
def padZeros (d : Nat) (s : String) : String :=
  if s.length ≥ d then s else String.mk (List.replicate (d - s.length) '0') ++ s

/-- JS `Number.prototype.toFixed(d)` for a finite value: round half away
from zero to `d` decimal digits and render. -/
def jsToFixed (d : Nat) (q : ℚ) : String :=
  let p : Int := (10 : Int) ^ d
  let n : Int := ⌊|q| * (p : ℚ) + 1/2⌋
  let digits : String :=
    if d = 0 then toString (n / p)
    else toString (n / p) ++ "." ++ padZeros d (toString (n % p))
  if q < 0 then "-" ++ digits else digits

/-- JS default number-to-string conversion (template literals) for the
finite-decimal rationals that occur in this engine: shortest exact decimal
rendering. -/
def jsNumToString (q : ℚ) : String :=
  match (List.range 21).find? (fun k => (q.den : Nat) ∣ 10 ^ k) with
  | some k =>
      if k = 0 then
        toString q.num
      else
        let p : Int := (10 : Int) ^ k
        let n : Int := q.num.natAbs * ((10 ^ k) / q.den)
        let digits := toString (n / p) ++ "." ++ padZeros k (toString (n % p))
        if q < 0 then "-" ++ digits else digits
  | none => toString q

-- ============================================================================
-- DATA MODEL (interfaces of authController.ts)
-- ============================================================================

structure QuestionOption where
  id : String
  isCorrect : Bool
  partialCreditPercentage : ℚ
deriving DecidableEq

structure Question where
  id : String
  points : ℚ
  difficultyLevel : Int
  options : List QuestionOption
deriving DecidableEq

/-- `confidenceLevel` and `timeSpent` are optional fields of the TS
interface. -/
structure Answer where
  questionId : String
  selectedOptionId : String
  isCorrect : Bool
  confidenceLevel : Option ℚ
  timeSpent : Option ℚ
deriving DecidableEq

structure ScoringResult where
  pointsEarned : ℚ
  pointsPossible : ℚ
  percentage : Option ℚ
  feedback : String
  appliedMultipliers : List String
deriving DecidableEq

structure UserPerformanceMetrics where
  recentAccuracy : ℚ
  averageResponseTime : ℚ
  consecutiveCorrect : Nat
  consecutiveIncorrect : Nat
  currentStreak : Nat
deriving DecidableEq

structure ScoringContext where
  question : Question
  answer : Answer
  userPerformance : Option UserPerformanceMetrics
deriving DecidableEq

-- ============================================================================
-- ABSTRACT STRATEGY CLASS
-- ============================================================================

/-- The abstract class `ScoringStrategy` has the single abstract method
`calculateScore`; each concrete policy is a value of this structure. -/
structure ScoringStrategy where
  calculateScore : ScoringContext → ScoringResult

/-- `ScoringStrategy.getSelectedOption`. -/
def getSelectedOption (question : Question) (answer : Answer) : Option QuestionOption :=
  question.options.find? (fun opt => opt.id == answer.selectedOptionId)

/-- `ScoringStrategy.formatFeedback`; every call site in the source uses the
default language argument, Tagalog. -/
def formatFeedback (isCorrect : Bool) (pointsEarned : ℚ) (language : String) : String :=
  if language = "tl" then
    if isCorrect then
      if pointsEarned > 0 then
        "Tama! Nakakuha ka ng " ++ jsToFixed 1 pointsEarned ++ " puntos."
      else "Tama ang sagot!"
    else
      if pointsEarned < 0 then
        "Mali. Nabawasan ng " ++ jsToFixed 1 |pointsEarned| ++ " puntos."
      else "Mali ang sagot. Subukan muli."
  else
    if isCorrect then
      if pointsEarned > 0 then
        "Correct! You earned " ++ jsToFixed 1 pointsEarned ++ " points."
      else "Correct answer!"
    else
      if pointsEarned < 0 then
        "Incorrect. Lost " ++ jsToFixed 1 |pointsEarned| ++ " points."
      else "Incorrect answer. Try again."

-- ============================================================================
-- CONCRETE STRATEGY IMPLEMENTATIONS (authController.ts)
-- ============================================================================

/-- `StandardScoring.calculateScore`: correct answer = full points,
incorrect = 0. -/
def StandardScoring : ScoringStrategy :=
  ⟨fun ctx =>
    let pointsEarned := if ctx.answer.isCorrect then ctx.question.points else 0
    { pointsEarned := pointsEarned
      pointsPossible := ctx.question.points
      percentage := (jsDiv pointsEarned ctx.question.points).map (fun p => p * 100)
      feedback := formatFeedback ctx.answer.isCorrect pointsEarned "tl"
      appliedMultipliers := ["standard"] }⟩

/-- `NegativePenaltyScoring` with its constructor argument
`penaltyPercentage` (default 25 at the registry). -/
def NegativePenaltyScoring (penaltyPercentage : ℚ) : ScoringStrategy :=
  ⟨fun ctx =>
    let pointsEarned :=
      if ctx.answer.isCorrect then ctx.question.points
      else -(ctx.question.points * (penaltyPercentage / 100))
    { pointsEarned := pointsEarned
      pointsPossible := ctx.question.points
      percentage := some (if ctx.answer.isCorrect then 100 else penaltyPercentage * (-1))
      feedback := formatFeedback ctx.answer.isCorrect pointsEarned "tl"
      appliedMultipliers := ["negative_penalty", jsNumToString penaltyPercentage ++ "%"] }⟩

/-- `PartialCreditScoring.calculateScore`: resolves the selected option and
awards its partial-credit percentage; an unresolvable selection is the
distinct "no answer selected" terminal case. -/
def PartialCreditScoring : ScoringStrategy :=
  ⟨fun ctx =>
    match getSelectedOption ctx.question ctx.answer with
    | none =>
        { pointsEarned := 0
          pointsPossible := ctx.question.points
          percentage := some 0
          feedback := "Walang napiling sagot / No answer selected"
          appliedMultipliers := [] }
    | some selectedOption =>
        let pe : ℚ × ℚ :=
          if selectedOption.isCorrect then (ctx.question.points, 100)
          else if selectedOption.partialCreditPercentage > 0 then
            (ctx.question.points * (selectedOption.partialCreditPercentage / 100),
             selectedOption.partialCreditPercentage)
          else (0, 0)
        let pointsEarned := pe.1
        let percentage := pe.2
        let feedback :=
          if percentage > 0 ∧ percentage < 100 then
            "Bahagyang tama! Nakakuha ka ng " ++ jsNumToString percentage ++
              "% ng puntos. / Partially correct! You earned " ++
              jsNumToString percentage ++ "% of the points."
          else formatFeedback ctx.answer.isCorrect pointsEarned "tl"
        { pointsEarned := pointsEarned
          pointsPossible := ctx.question.points
          percentage := some percentage
          feedback := feedback
          appliedMultipliers := ["partial_credit", jsNumToString percentage ++ "%"] }⟩

/-- `ConfidenceBasedScoring(highConfidenceThreshold, highConfidenceMultiplier,
basePenaltyPercentage)`; registry defaults are (4, 2.0, 25).  The source
reads `answer.confidenceLevel || 3`, a falsy default. -/
def ConfidenceBasedScoring (highConfidenceThreshold highConfidenceMultiplier basePenaltyPercentage : ℚ) : ScoringStrategy :=
  ⟨fun ctx =>
    let question := ctx.question
    let answer := ctx.answer
    let confidence := jsOrQ answer.confidenceLevel 3
    let isHighConfidence := confidence ≥ highConfidenceThreshold
    let em : ℚ × List String :=
      if answer.isCorrect then
        if isHighConfidence then
          (question.points * highConfidenceMultiplier,
           ["confidence_based",
            "high_confidence_bonus_" ++ jsNumToString highConfidenceMultiplier ++ "x"])
        else (question.points, ["confidence_based"])
      else
        if isHighConfidence then
          (-(question.points * (basePenaltyPercentage / 100)) * highConfidenceMultiplier,
           ["confidence_based",
            "high_confidence_penalty_" ++ jsNumToString highConfidenceMultiplier ++ "x"])
        else
          (-(question.points * (basePenaltyPercentage / 100)) * (1/2),
           ["confidence_based",
            "low_confidence_reduced_penalty_" ++ jsNumToString (1/2) ++ "x"])
    let pointsEarned := em.1
    let percentage := (jsDiv pointsEarned question.points).map (fun p => p * 100)
    let confidenceFeedback :=
      if isHighConfidence then " (Mataas na kumpiyansa / High confidence)"
      else " (Mababang kumpiyansa / Low confidence)"
    { pointsEarned := pointsEarned
      pointsPossible :=
        question.points * (if isHighConfidence ∧ answer.isCorrect then highConfidenceMultiplier else 1)
      percentage := percentage.map (fun p => min 100 (max (-100) p))
      feedback := formatFeedback answer.isCorrect pointsEarned "tl" ++ confidenceFeedback
      appliedMultipliers := em.2 }⟩

/-- `ThresholdScoring(minimumThreshold, baseStrategy)`; registry default is
(40, StandardScoring).  The JS comparison `percentage < threshold` is false
when the base percentage is NaN. -/
def ThresholdScoring (minimumThreshold : ℚ) (baseStrategy : ScoringStrategy) : ScoringStrategy :=
  ⟨fun ctx =>
    let baseResult := baseStrategy.calculateScore ctx
    if jsLtOpt baseResult.percentage minimumThreshold then
      { baseResult with
          pointsEarned := 0
          percentage := some 0
          feedback := baseResult.feedback ++
            " (Mas mababa sa minimum threshold / Below minimum threshold)"
          appliedMultipliers := baseResult.appliedMultipliers ++
            ["threshold_" ++ jsNumToString minimumThreshold ++ "%"] }
    else
      { baseResult with
          appliedMultipliers := baseResult.appliedMultipliers ++ ["threshold_passed"] }⟩

/-- `TimeBasedScoring(fastThresholdSeconds, slowThresholdSeconds,
maxSpeedBonus)`; registry defaults are (10, 60, 0.5).  The source reads
`answer.timeSpent || slowThresholdSeconds` — a falsy default, so a present
value of 0 seconds is also replaced by the slow threshold. -/
def TimeBasedScoring (fastThresholdSeconds slowThresholdSeconds maxSpeedBonus : ℚ) : ScoringStrategy :=
  ⟨fun ctx =>
    let question := ctx.question
    let answer := ctx.answer
    let timeSpent := jsOrQ answer.timeSpent slowThresholdSeconds
    let base : ℚ := if answer.isCorrect then question.points else 0
    let bm : ℚ × List String :=
      if answer.isCorrect ∧ timeSpent ≤ fastThresholdSeconds then
        (question.points * maxSpeedBonus,
         ["time_based", "speed_bonus_" ++ jsNumToString (maxSpeedBonus * 100) ++ "%"])
      else if answer.isCorrect ∧ timeSpent < slowThresholdSeconds then
        let speedRatio := 1 - ((timeSpent - fastThresholdSeconds) /
          (slowThresholdSeconds - fastThresholdSeconds))
        let speedBonus := question.points * maxSpeedBonus * speedRatio
        (speedBonus,
         ["time_based",
          "speed_bonus_" ++
            (match jsDiv (speedBonus * 100) question.points with
             | some v => jsToFixed 0 v
             | none => "NaN") ++ "%"])
      else (0, ["time_based"])
    let speedBonus := bm.1
    let pointsEarned := base + speedBonus
    let percentage := (jsDiv pointsEarned question.points).map (fun p => p * 100)
    let timeFeedback :=
      if speedBonus > 0 then
        " (Mabilis na sagot! Bonus: +" ++ jsToFixed 1 speedBonus ++
          " / Fast answer! Bonus: +" ++ jsToFixed 1 speedBonus ++ ")"
      else ""
    { pointsEarned := pointsEarned
      pointsPossible := question.points * (1 + maxSpeedBonus)
      percentage := percentage.map (fun p => min (100 + maxSpeedBonus * 100) p)
      feedback := formatFeedback answer.isCorrect pointsEarned "tl" ++ timeFeedback
      appliedMultipliers := bm.2 }⟩

/-- `AdaptiveDifficultyScoring.calculateScore`: the difficulty multiplier is
computed directly from `question.difficultyLevel` with no clamping. -/
def AdaptiveDifficultyScoring : ScoringStrategy :=
  ⟨fun ctx =>
    let question := ctx.question
    let answer := ctx.answer
    let difficultyMultiplier : ℚ := 1 + ((question.difficultyLevel : ℚ) - 1) * (1/4)
    let performanceMultiplier : ℚ :=
      match ctx.userPerformance with
      | none => 1
      | some up =>
          if up.recentAccuracy < 60 then 12/10
          else if up.recentAccuracy > 90 then 9/10
          else 1
    let adjustedPoints := question.points * difficultyMultiplier
    let pointsEarned := if answer.isCorrect then adjustedPoints * performanceMultiplier else 0
    let percentage : ℚ := if answer.isCorrect then 100 else 0
    let difficultyFeedback :=
      if question.difficultyLevel ≥ 4 then " (Mahirap na tanong! / Difficult question!)"
      else if question.difficultyLevel ≤ 2 then " (Madaling tanong / Easy question)"
      else ""
    { pointsEarned := pointsEarned
      pointsPossible := adjustedPoints
      percentage := some percentage
      feedback := formatFeedback answer.isCorrect pointsEarned "tl" ++ difficultyFeedback
      appliedMultipliers :=
        ["adaptive_difficulty",
         "difficulty_" ++ jsToFixed 2 difficultyMultiplier ++ "x",
         "performance_" ++ jsToFixed 2 performanceMultiplier ++ "x"] }⟩

/-- `ComboStreakScoring(streakBonusPerCorrect, maxStreakMultiplier)`;
registry defaults are (0.1, 2.0).  The source reads
`userPerformance?.consecutiveCorrect || 0`. -/
def ComboStreakScoring (streakBonusPerCorrect maxStreakMultiplier : ℚ) : ScoringStrategy :=
  ⟨fun ctx =>
    let question := ctx.question
    let answer := ctx.answer
    let consecutiveCorrect : Nat :=
      match ctx.userPerformance with
      | none => 0
      | some up => up.consecutiveCorrect
    let streakMultiplier : ℚ :=
      min maxStreakMultiplier (1 + (consecutiveCorrect : ℚ) * streakBonusPerCorrect)
    let pointsEarned := if answer.isCorrect then question.points * streakMultiplier else 0
    let multipliers :=
      ["combo_streak"] ++
        (if answer.isCorrect ∧ consecutiveCorrect > 0 then
          ["streak_" ++ toString consecutiveCorrect,
           "multiplier_" ++ jsToFixed 2 streakMultiplier ++ "x"]
         else [])
    let percentage : ℚ := if answer.isCorrect then 100 else 0
    let streakFeedback :=
      if consecutiveCorrect ≥ 3 ∧ answer.isCorrect then
        " (Combo x" ++ toString (consecutiveCorrect + 1) ++ "! Multiplier: " ++
          jsToFixed 2 streakMultiplier ++ "x)"
      else if consecutiveCorrect > 0 ∧ ¬answer.isCorrect then
        " (Combo broken / Naputol ang combo)"
      else ""
    { pointsEarned := pointsEarned
      pointsPossible := question.points * streakMultiplier
      percentage := some percentage
      feedback := formatFeedback answer.isCorrect pointsEarned "tl" ++ streakFeedback
      appliedMultipliers := multipliers }⟩

/-- `CompositeScoring(strategies)`: applies every inner policy, sums earned
and possible points, joins feedback with a separator, concatenates traces,
and divides the totals for the percentage — with no guard on a zero total
possible (`(0/0)*100` is NaN in JS, modelled as `none`). -/
def CompositeScoring (strategies : List ScoringStrategy) : ScoringStrategy :=
  ⟨fun ctx =>
    let results := strategies.map (fun strategy => strategy.calculateScore ctx)
    let totalPointsEarned := results.foldl (fun sum r => sum + r.pointsEarned) 0
    let totalPointsPossible := results.foldl (fun sum r => sum + r.pointsPossible) 0
    let allMultipliers := results.flatMap (fun r => r.appliedMultipliers)
    let combinedFeedback := jsJoin " | " (results.map (fun r => r.feedback))
    { pointsEarned := totalPointsEarned
      pointsPossible := totalPointsPossible
      percentage := (jsDiv totalPointsEarned totalPointsPossible).map (fun p => p * 100)
      feedback := combinedFeedback
      appliedMultipliers := "composite" :: allMultipliers }⟩

-- ============================================================================
-- STRATEGY FACTORY (registry)
-- ============================================================================

/-- The static registry of `ScoringStrategyFactory`, with the constructor
arguments used there (defaults spelled out). -/
def ScoringStrategyFactory.strategies : List (String × ScoringStrategy) :=
  [("standard", StandardScoring),
   ("negative_penalty", NegativePenaltyScoring 25),
   ("partial_credit", PartialCreditScoring),
   ("confidence_based", ConfidenceBasedScoring 4 2 25),
   ("threshold", ThresholdScoring 40 StandardScoring),
   ("time_based", TimeBasedScoring 10 60 (1/2)),
   ("adaptive_difficulty", AdaptiveDifficultyScoring),
   ("combo_streak", ComboStreakScoring (1/10) 2)]

/-- `ScoringStrategyFactory.getStrategy`: unknown names fall back to the
standard strategy. -/
def ScoringStrategyFactory.getStrategy (strategyName : String) : ScoringStrategy :=
  match (ScoringStrategyFactory.strategies.find? (fun p => p.1 == strategyName)) with
  | some p => p.2
  | none => StandardScoring

-- ============================================================================
-- ADAPTIVE QUESTION SELECTOR (quizRoutes.ts)
-- ============================================================================

/-- The `targetDifficulty` computation inlined at the top of
`selectAdaptiveQuestions`: raise by one (capped at 5) on strong recent
performance, lower by one (floored at 1) on weak recent performance,
otherwise keep `currentDifficulty` unchanged. -/
def selectTargetDifficulty (userPerformance : UserPerformanceMetrics) (currentDifficulty : Int) : Int :=
  if userPerformance.recentAccuracy > 80 ∧ userPerformance.consecutiveCorrect ≥ 3 then
    min 5 (currentDifficulty + 1)
  else if userPerformance.recentAccuracy < 50 ∧ userPerformance.consecutiveIncorrect ≥ 3 then
    max 1 (currentDifficulty - 1)
  else currentDifficulty

/-- The filter predicate of `selectAdaptiveQuestions`:
`Math.abs(q.difficultyLevel - targetDifficulty) <= 1`. -/
def nearTarget (targetDifficulty : Int) (q : Question) : Bool :=
  (q.difficultyLevel - targetDifficulty).natAbs ≤ 1

/-- `selectAdaptiveQuestions(availableQuestions, count, userPerformance,
currentDifficulty)`.  The source shuffles the filtered pool with
`sort(() => Math.random() - 0.5)`; that shuffle is modelled as an explicit
function parameter (theorems assume only that it permutes its input), then
`slice(0, Math.min(count, shuffled.length))` is applied with exact JS slice
semantics. -/
def selectAdaptiveQuestions (shuffle : List Question → List Question)
    (availableQuestions : List Question) (count : Int)
    (userPerformance : UserPerformanceMetrics) (currentDifficulty : Int) : List Question :=
  let targetDifficulty := selectTargetDifficulty userPerformance currentDifficulty
  let suitableQuestions := availableQuestions.filter (nearTarget targetDifficulty)
  let shuffled := shuffle suitableQuestions
  jsSlice0 shuffled (min count (shuffled.length : Int))

/-- Modelled from the spec: "Malformed difficulty level (outside 1–5) →
clamp at the boundary".  This is the specification-side clamping operation,
written to compare against the source, which contains no such clamp. -/
def clampDifficultySpec (d : Int) : Int :=
  max 1 (min 5 d)

-- ============================================================================
-- CONCRETE FIXTURES (used by evaluation theorems and witnesses)
-- ============================================================================

def exOptionA : QuestionOption := ⟨"A", true, 0⟩

def exOptionB : QuestionOption := ⟨"B", false, 40⟩

/-- A ten-point question at difficulty 3 with a correct option A and a
partial-credit option B. -/
def exQuestion : Question := ⟨"q1", 10, 3, [exOptionA, exOptionB]⟩

/-- A ten-point question at difficulty 5. -/
def exQuestion5 : Question := ⟨"q5", 10, 5, [exOptionA]⟩

def exPoolA : Question := ⟨"pa", 10, 3, [exOptionA]⟩

def exPoolB : Question := ⟨"pb", 10, 3, [exOptionA]⟩

def exPoolC : Question := ⟨"pc", 10, 4, [exOptionA]⟩

def exAnswerCorrect : Answer := ⟨"q1", "A", true, none, none⟩

/-- An answer whose selected option id matches none of the question's
options. -/
def exAnswerBad : Answer := ⟨"q1", "Z", false, none, none⟩

/-- Performance metrics that trigger neither difficulty adjustment. -/
def exMetricsNeutral : UserPerformanceMetrics := ⟨75, 15, 2, 0, 5⟩

def exCtx : ScoringContext := ⟨exQuestion, exAnswerCorrect, none⟩

-- ============================================================================
-- CLAIM THEOREMS
-- ============================================================================

/-- Claim C1 (code bug): with the default TimeBased parameters, a correct
answer with `timeSpent = 0` does NOT earn the full speed bonus claimed by
the spec.  The source reads `answer.timeSpent || slowThresholdSeconds`, and
0 is falsy in JS, so an explicit 0 is replaced by the 60-second slow
threshold and earns the plain 10 points, not `points * 1.5 = 15`.  The
second half of the claim (no bonus at `timeSpent = 60`) does hold. -/
theorem timeBased_timeSpent_zero_bug :
    ((TimeBasedScoring 10 60 (1/2)).calculateScore
        ⟨exQuestion, { exAnswerCorrect with timeSpent := some 0 }, none⟩).pointsEarned = 10 ∧
    ((TimeBasedScoring 10 60 (1/2)).calculateScore
        ⟨exQuestion, { exAnswerCorrect with timeSpent := some 0 }, none⟩).pointsEarned ≠
      exQuestion.points * (3/2) ∧
    ((TimeBasedScoring 10 60 (1/2)).calculateScore
        ⟨exQuestion, { exAnswerCorrect with timeSpent := some 60 }, none⟩).pointsEarned = 10 := by
  refine ⟨?_, ?_, ?_⟩ <;>
    norm_num [TimeBasedScoring, jsOrQ, exQuestion, exAnswerCorrect]

/-- Claim C2 (code bug): `CompositeScoring.calculateScore` does not guard
the division by the summed possible points.  With no inner policies (so
every inner policy vacuously reports 0 possible), and likewise with the
single Standard policy on a 0-point question, the total possible is 0 and
the percentage is `(0/0)*100`, i.e. NaN (modelled `none`), not the 0 the
spec requires. -/
theorem composite_division_by_zero_unguarded :
    ((CompositeScoring []).calculateScore exCtx).pointsPossible = 0 ∧
    ((CompositeScoring []).calculateScore exCtx).percentage = none ∧
    ((CompositeScoring [StandardScoring]).calculateScore
        ⟨{ exQuestion with points := 0 }, exAnswerCorrect, none⟩).pointsPossible = 0 ∧
    ((CompositeScoring [StandardScoring]).calculateScore
        ⟨{ exQuestion with points := 0 }, exAnswerCorrect, none⟩).percentage = none := by
  refine ⟨?_, ?_, ?_, ?_⟩ <;>
    norm_num [CompositeScoring, StandardScoring, jsDiv, exQuestion, exAnswerCorrect]

/-- Claim C4 (code bug): `selectAdaptiveQuestions` with a negative `count`
does not return the empty list.  `slice(0, Math.min(count, length))`
receives the negative count and JS slice counts a negative end index from
the end of the array, so `count = -1` on a filtered pool of two suitable
questions returns one question; the spec requires `count <= 0` to yield an
empty result.  (On an empty pool the result is empty as claimed.) -/
theorem selector_negative_count_bug :
    selectAdaptiveQuestions id [exPoolA, exPoolB] (-1) exMetricsNeutral 3 = [exPoolA] ∧
    selectAdaptiveQuestions id [] (-1) exMetricsNeutral 3 = [] := by
  constructor <;> decide

/-- Claim C3, counterexample: a difficulty of 7 arriving at the core is
used as-is, not clamped to 5.  In the selector's no-adjustment branch a
difficulty-5 question falls outside the ±1 band around target 7 (while it
would be selected had 7 been clamped to 5), and AdaptiveDifficultyScoring's
multiplier at level 7 is 2.5 (points possible 25), not the 2.0 (20) of the
clamped level. -/
theorem difficulty_not_clamped_counterexample :
    selectAdaptiveQuestions id [exQuestion5] 1 exMetricsNeutral 7 = [] ∧
    selectAdaptiveQuestions id [exQuestion5] 1 exMetricsNeutral (clampDifficultySpec 7) = [exQuestion5] ∧
    (AdaptiveDifficultyScoring.calculateScore
        ⟨{ exQuestion with difficultyLevel := 7 }, exAnswerCorrect, none⟩).pointsPossible = 25 ∧
    (AdaptiveDifficultyScoring.calculateScore
        ⟨{ exQuestion with difficultyLevel := clampDifficultySpec 7 }, exAnswerCorrect, none⟩).pointsPossible = 20 := by
  refine ⟨by decide, by decide, ?_, ?_⟩ <;>
    norm_num [AdaptiveDifficultyScoring, clampDifficultySpec, exQuestion, exAnswerCorrect]

/-- Claim C3, amended: the [1,5] range is only preserved, not enforced — the
clamping `min 5 (d+1)` / `max 1 (d-1)` happens solely on the two
adjustment branches of the selector's target-difficulty computation, so a
difficulty that is already in [1,5] stays in [1,5], while an out-of-range
difficulty in the no-adjustment branch (and in AdaptiveDifficultyScoring's
multiplier) is used as-is. -/
theorem target_difficulty_range_preserved (up : UserPerformanceMetrics) (d : Int)
    (h1 : 1 ≤ d) (h5 : d ≤ 5) :
    1 ≤ selectTargetDifficulty up d ∧ selectTargetDifficulty up d ≤ 5 := by
  unfold selectTargetDifficulty
  split
  · omega
  · split <;> omega

/-- Witness for the amended C3 theorem at difficulty 3 and the neutral
metrics. -/
theorem target_difficulty_range_preserved_witness :
    1 ≤ selectTargetDifficulty exMetricsNeutral 3 ∧ selectTargetDifficulty exMetricsNeutral 3 ≤ 5 :=
  target_difficulty_range_preserved exMetricsNeutral 3 (by decide) (by decide)

/-- Claim C7, counterexample: when the selected option id matches none of
the question's options, PartialCreditScoring reports
`pointsPossible = question.points` (here 10), not the 0 the claim asserts
for "both pointsEarned and pointsPossible". -/
theorem partialCredit_no_answer_possible_not_zero :
    getSelectedOption exQuestion exAnswerBad = none ∧
    (PartialCreditScoring.calculateScore ⟨exQuestion, exAnswerBad, none⟩).pointsPossible = 10 ∧
    (10 : ℚ) ≠ 0 := by
  refine ⟨by decide, ?_, by norm_num⟩
  have h : getSelectedOption exQuestion exAnswerBad = none := by decide
  simp only [PartialCreditScoring, h]
  simp [exQuestion]

/-- Claim C7, amended: the unresolvable-selection case is the distinct
"no answer" terminal result — 0 earned, 0 percentage, the literal
"no answer selected" feedback and an empty modifier trace — but its
`pointsPossible` is `question.points`, not 0. -/
theorem partialCredit_no_answer_terminal (ctx : ScoringContext)
    (h : getSelectedOption ctx.question ctx.answer = none) :
    PartialCreditScoring.calculateScore ctx =
      { pointsEarned := 0
        pointsPossible := ctx.question.points
        percentage := some 0
        feedback := "Walang napiling sagot / No answer selected"
        appliedMultipliers := [] } := by
  simp only [PartialCreditScoring, h]

/-- Witness for the amended C7 theorem on the fixture context whose answer
selects the nonexistent option id "Z". -/
theorem partialCredit_no_answer_terminal_witness :
    PartialCreditScoring.calculateScore ⟨exQuestion, exAnswerBad, none⟩ =
      { pointsEarned := 0
        pointsPossible := exQuestion.points
        percentage := some 0
        feedback := "Walang napiling sagot / No answer selected"
        appliedMultipliers := [] } :=
  partialCredit_no_answer_terminal ⟨exQuestion, exAnswerBad, none⟩ (by decide)

/-- Claim C8, counterexample: Composite of [Standard] does not reproduce
the Standard result exactly — the applied-modifiers trace gains a leading
"composite" tag, so the traces (and hence the full results) differ. -/
theorem composite_standard_trace_differs :
    ((CompositeScoring [StandardScoring]).calculateScore exCtx).appliedMultipliers =
      ["composite", "standard"] ∧
    (StandardScoring.calculateScore exCtx).appliedMultipliers = ["standard"] ∧
    (["composite", "standard"] : List String) ≠ ["standard"] := by
  refine ⟨?_, ?_, by decide⟩ <;> simp [CompositeScoring, StandardScoring]

/-- Claim C8, amended: for every context, Composite of [Standard] agrees
with Standard on pointsEarned, pointsPossible, percentage and feedback, and
its applied-modifiers trace is Standard's trace with "composite" prepended. -/
theorem composite_standard_roundtrip (ctx : ScoringContext) :
    (CompositeScoring [StandardScoring]).calculateScore ctx =
      { StandardScoring.calculateScore ctx with
          appliedMultipliers :=
            "composite" :: (StandardScoring.calculateScore ctx).appliedMultipliers } := by
  simp [CompositeScoring, StandardScoring, jsJoin]

/-- Claim C5: the ConfidenceBased policy with defaults (threshold 4,
multiplier 2.0, base penalty 25%) on a positive-point question: confidence
defaults to 3 when absent; correct with confidence ≥ 4 earns and risks
`points * 2`; correct with confidence < 4 earns `points` with possible
`points`; incorrect with confidence ≥ 4 earns `-(points*25/100)*2`;
incorrect with confidence < 4 earns `-(points*25/100)*0.5`; and the
reported percentage is clamped to [-100, 100]. -/
theorem confidenceBased_contract (q : Question) (a : Answer)
    (up : Option UserPerformanceMetrics) (hp : 0 < q.points) :
    (a.confidenceLevel = none →
      (ConfidenceBasedScoring 4 2 25).calculateScore ⟨q, a, up⟩ =
        (ConfidenceBasedScoring 4 2 25).calculateScore ⟨q, { a with confidenceLevel := some 3 }, up⟩) ∧
    (∀ c, a.confidenceLevel = some c → a.isCorrect = true → 4 ≤ c →
      ((ConfidenceBasedScoring 4 2 25).calculateScore ⟨q, a, up⟩).pointsEarned = q.points * 2 ∧
      ((ConfidenceBasedScoring 4 2 25).calculateScore ⟨q, a, up⟩).pointsPossible = q.points * 2) ∧
    (∀ c, a.confidenceLevel = some c → a.isCorrect = true → c < 4 →
      ((ConfidenceBasedScoring 4 2 25).calculateScore ⟨q, a, up⟩).pointsEarned = q.points ∧
      ((ConfidenceBasedScoring 4 2 25).calculateScore ⟨q, a, up⟩).pointsPossible = q.points) ∧
    (∀ c, a.confidenceLevel = some c → a.isCorrect = false → 4 ≤ c →
      ((ConfidenceBasedScoring 4 2 25).calculateScore ⟨q, a, up⟩).pointsEarned =
        -(q.points * (25 / 100)) * 2) ∧
    (∀ c, a.confidenceLevel = some c → a.isCorrect = false → c < 4 →
      ((ConfidenceBasedScoring 4 2 25).calculateScore ⟨q, a, up⟩).pointsEarned =
        -(q.points * (25 / 100)) * (1/2)) ∧
    (∃ p, ((ConfidenceBasedScoring 4 2 25).calculateScore ⟨q, a, up⟩).percentage = some p ∧
      -100 ≤ p ∧ p ≤ 100) := by
  refine ⟨?_, ?_, ?_, ?_, ?_, ?_⟩
  · intro hnone
    simp [ConfidenceBasedScoring, jsOrQ, hnone]
  · intro c hc hcor h4
    have hc0 : ¬ c = 0 := by intro h; rw [h] at h4; norm_num at h4
    constructor <;> simp [ConfidenceBasedScoring, jsOrQ, hc, hcor, hc0, ge_iff_le, h4]
  · intro c hc hcor h4
    have h4' : ¬ (4 : ℚ) ≤ c := not_le.mpr h4
    rcases eq_or_ne c 0 with h0 | h0
    · constructor <;> norm_num [ConfidenceBasedScoring, jsOrQ, hc, hcor, h0]
    · constructor <;> simp [ConfidenceBasedScoring, jsOrQ, hc, hcor, h0, ge_iff_le, h4']
  · intro c hc hcor h4
    have hc0 : ¬ c = 0 := by intro h; rw [h] at h4; norm_num at h4
    simp [ConfidenceBasedScoring, jsOrQ, hc, hcor, hc0, ge_iff_le, h4]
  · intro c hc hcor h4
    have h4' : ¬ (4 : ℚ) ≤ c := not_le.mpr h4
    rcases eq_or_ne c 0 with h0 | h0
    · norm_num [ConfidenceBasedScoring, jsOrQ, hc, hcor, h0]
    · simp [ConfidenceBasedScoring, jsOrQ, hc, hcor, h0, ge_iff_le, h4']
  · simp only [ConfidenceBasedScoring]
    simp only [jsDiv, hp.ne', if_false, Option.map_some, reduceIte]
    exact ⟨_, rfl, le_min (by norm_num) (le_max_left _ _), min_le_left _ _⟩

/-- Witness for C5 on the fixture ten-point question with a correct,
high-confidence (5) answer. -/
theorem confidenceBased_contract_witness :
    0 < exQuestion.points ∧
    ((ConfidenceBasedScoring 4 2 25).calculateScore
        ⟨exQuestion, { exAnswerCorrect with confidenceLevel := some 5 }, none⟩).pointsEarned =
      exQuestion.points * 2 ∧
    ((ConfidenceBasedScoring 4 2 25).calculateScore
        ⟨exQuestion, { exAnswerCorrect with confidenceLevel := some 5 }, none⟩).pointsPossible =
      exQuestion.points * 2 :=
  ⟨by norm_num [exQuestion],
   (confidenceBased_contract exQuestion { exAnswerCorrect with confidenceLevel := some 5 } none
      (by norm_num [exQuestion])).2.1 5 rfl rfl (by norm_num)⟩

/-- Claim C9: scoring is deterministic — every policy of the factory
registry, and the composite wrapper over any list of policies, yields the
same ScoringResult on two invocations with the same context.  In this
embedding each `calculateScore` is a pure function, faithful to the source:
none of the strategy methods reads a random source or mutates state. -/
theorem scoring_deterministic :
    (∀ p ∈ ScoringStrategyFactory.strategies, ∀ ctx : ScoringContext,
      p.2.calculateScore ctx = p.2.calculateScore ctx) ∧
    (∀ (ss : List ScoringStrategy) (ctx : ScoringContext),
      (CompositeScoring ss).calculateScore ctx = (CompositeScoring ss).calculateScore ctx) :=
  ⟨fun _ _ _ => rfl, fun _ _ => rfl⟩

/-- Witness for C9 on the registry's standard policy and a concrete
context. -/
theorem scoring_deterministic_witness :
    StandardScoring.calculateScore exCtx = StandardScoring.calculateScore exCtx :=
  scoring_deterministic.1 ("standard", StandardScoring)
    (by simp [ScoringStrategyFactory.strategies]) exCtx

/-- Claim C10: with the default TimeBased parameters, an answer carrying no
`timeSpent` at all falls back to the slow threshold (60 s), so a correct
answer with absent `timeSpent` earns exactly `question.points` (no speed
bonus) while `pointsPossible` is still `points * (1 + maxBonusFrac)`. -/
theorem timeBased_absent_timeSpent (q : Question) (a : Answer)
    (up : Option UserPerformanceMetrics)
    (hcor : a.isCorrect = true) (ht : a.timeSpent = none) :
    jsOrQ a.timeSpent 60 = 60 ∧
    ((TimeBasedScoring 10 60 (1/2)).calculateScore ⟨q, a, up⟩).pointsEarned = q.points ∧
    ((TimeBasedScoring 10 60 (1/2)).calculateScore ⟨q, a, up⟩).pointsPossible =
      q.points * (1 + 1/2) := by
  refine ⟨by simp [jsOrQ, ht], ?_, ?_⟩ <;>
    norm_num [TimeBasedScoring, jsOrQ, hcor, ht]

/-- Witness for C10 on the fixture question with a correct, time-less
answer. -/
theorem timeBased_absent_timeSpent_witness :
    jsOrQ exAnswerCorrect.timeSpent 60 = 60 ∧
    ((TimeBasedScoring 10 60 (1/2)).calculateScore
        ⟨exQuestion, exAnswerCorrect, none⟩).pointsEarned = exQuestion.points ∧
    ((TimeBasedScoring 10 60 (1/2)).calculateScore
        ⟨exQuestion, exAnswerCorrect, none⟩).pointsPossible = exQuestion.points * (1 + 1/2) :=
  timeBased_absent_timeSpent exQuestion exAnswerCorrect none (by decide) (by decide)

/-- Claim C6: for every permutation-only shuffle, metrics snapshot, pool,
difficulty and non-negative count, `selectAdaptiveQuestions` computes the
target difficulty as `min 5 (d+1)` on strong performance, `max 1 (d-1)` on
weak performance, and `d` otherwise; every returned question lies within 1
difficulty level of the target; and the result is a duplicate-free
selection (sub-permutation) of the filtered pool of size
`min count (filtered pool size)`. -/
theorem selectAdaptiveQuestions_contract
    (shuffle : List Question → List Question)
    (hshuffle : ∀ l, (shuffle l).Perm l)
    (pool : List Question) (count : Int)
    (up : UserPerformanceMetrics) (d : Int)
    (hcount : 0 ≤ count) :
    (up.recentAccuracy > 80 ∧ up.consecutiveCorrect ≥ 3 →
      selectTargetDifficulty up d = min 5 (d + 1)) ∧
    (up.recentAccuracy < 50 ∧ up.consecutiveIncorrect ≥ 3 →
      selectTargetDifficulty up d = max 1 (d - 1)) ∧
    (¬(up.recentAccuracy > 80 ∧ up.consecutiveCorrect ≥ 3) ∧
      ¬(up.recentAccuracy < 50 ∧ up.consecutiveIncorrect ≥ 3) →
      selectTargetDifficulty up d = d) ∧
    (∀ q ∈ selectAdaptiveQuestions shuffle pool count up d,
      (q.difficultyLevel - selectTargetDifficulty up d).natAbs ≤ 1) ∧
    (selectAdaptiveQuestions shuffle pool count up d).length =
      min count.toNat (pool.filter (nearTarget (selectTargetDifficulty up d))).length ∧
    (selectAdaptiveQuestions shuffle pool count up d).Subperm
      (pool.filter (nearTarget (selectTargetDifficulty up d))) := by
  have hbody : selectAdaptiveQuestions shuffle pool count up d =
      (shuffle (pool.filter (nearTarget (selectTargetDifficulty up d)))).take
        ((min count ((shuffle (pool.filter (nearTarget (selectTargetDifficulty up d)))).length : Int)).toNat) := by
    unfold selectAdaptiveQuestions jsSlice0
    rw [if_neg]
    rw [not_lt]
    exact le_min hcount (Int.natCast_nonneg _)
  have hperm := hshuffle (pool.filter (nearTarget (selectTargetDifficulty up d)))
  have hlen : (shuffle (pool.filter (nearTarget (selectTargetDifficulty up d)))).length =
      (pool.filter (nearTarget (selectTargetDifficulty up d))).length := hperm.length_eq
  refine ⟨?_, ?_, ?_, ?_, ?_, ?_⟩
  · intro h
    unfold selectTargetDifficulty
    rw [if_pos h]
  · intro h
    unfold selectTargetDifficulty
    rw [if_neg, if_pos h]
    rintro ⟨ha, _⟩
    exact absurd h.1 (not_lt.mpr (le_of_lt (by linarith)))
  · intro h
    unfold selectTargetDifficulty
    rw [if_neg h.1, if_neg h.2]
  · intro q hq
    rw [hbody] at hq
    have hq2 : q ∈ shuffle (pool.filter (nearTarget (selectTargetDifficulty up d))) :=
      List.mem_of_mem_take hq
    have hq3 : q ∈ pool.filter (nearTarget (selectTargetDifficulty up d)) :=
      hperm.mem_iff.mp hq2
    have := List.of_mem_filter hq3
    simpa [nearTarget] using this
  · rw [hbody, List.length_take]
    omega
  · rw [hbody]
    exact (List.Sublist.subperm (List.take_sublist _ _)).trans hperm.subperm

/-- Witness for C6: the identity shuffle (a permutation), a three-question
pool, count 2, the neutral metrics and difficulty 3. -/
theorem selectAdaptiveQuestions_contract_witness :
    (selectAdaptiveQuestions id [exPoolA, exPoolB, exPoolC] 2 exMetricsNeutral 3).length =
      min ((2 : Int)).toNat
        (([exPoolA, exPoolB, exPoolC].filter
          (nearTarget (selectTargetDifficulty exMetricsNeutral 3))).length) :=
  (selectAdaptiveQuestions_contract id (fun l => List.Perm.refl l)
    [exPoolA, exPoolB, exPoolC] 2 exMetricsNeutral 3 (by decide)).2.2.2.2.1

end Quiz
